import Mathlib

set_option maxRecDepth 8000

/-
Shallow embedding of `src/index.tsx` (orientation-driven clock widget):
view router, alarm scheduler, countdown timer, stopwatch and weather-fetch
trigger.  Each definition translates the correspondingly named function of
the source; DOM state (classes, labels, disabled flags, input values) is
carried in explicit state structures.
-/

namespace ClockApp

/-! ## View router (src/index.tsx lines 44-110) -/

/-- `screen.orientation.type` readings: the four concrete values plus a
catch-all for any other/unknown reading (the `default` branch of the
switch in `handleOrientationChange`). -/
inductive Orientation where
  | portraitPrimary
  | portraitSecondary
  | landscapePrimary
  | landscapeSecondary
  | other
deriving DecidableEq, Repr

/-- The four panel keys of the `views` map. -/
inductive ViewKey where
  | alarm
  | timer
  | stopwatch
  | weather
deriving DecidableEq, Repr

/-- Presence of the `hidden` class on each of the four view elements. -/
structure Visibility where
  alarmHidden : Bool
  timerHidden : Bool
  stopwatchHidden : Bool
  weatherHidden : Bool
deriving DecidableEq, Repr

def Visibility.isHidden (v : Visibility) : ViewKey → Bool
  | ViewKey.alarm => v.alarmHidden
  | ViewKey.timer => v.timerHidden
  | ViewKey.stopwatch => v.stopwatchHidden
  | ViewKey.weather => v.weatherHidden

def allViewKeys : List ViewKey :=
  [ViewKey.alarm, ViewKey.timer, ViewKey.stopwatch, ViewKey.weather]

def Visibility.visibleKeys (v : Visibility) : List ViewKey :=
  allViewKeys.filter (fun k => !(v.isHidden k))

/-- State of `views` after `updateVisibleView(activeViewKey)`: the forEach
adds `hidden` to every view, then the active key (when non-null) has
`hidden` removed. -/
def updateVisibleView : Option ViewKey → Visibility
  | none => ⟨true, true, true, true⟩
  | some ViewKey.alarm => ⟨false, true, true, true⟩
  | some ViewKey.timer => ⟨true, false, true, true⟩
  | some ViewKey.stopwatch => ⟨true, true, false, true⟩
  | some ViewKey.weather => ⟨true, true, true, false⟩

/-- The switch in `handleOrientationChange` on `screen.orientation.type`. -/
def handleOrientationChange : Orientation → Visibility
  | Orientation.portraitPrimary => updateVisibleView (some ViewKey.alarm)
  | Orientation.portraitSecondary => updateVisibleView (some ViewKey.timer)
  | Orientation.landscapeSecondary => updateVisibleView (some ViewKey.stopwatch)
  | Orientation.landscapePrimary => updateVisibleView (some ViewKey.weather)
  | Orientation.other => updateVisibleView (some ViewKey.alarm)

/-! ## Alarm delay arithmetic (src/index.tsx lines 149-174)

`setAlarm` builds `alarmTime` from today's date with
`setHours(parseInt(hours), parseInt(minutes), 0, 0)` and computes
`timeToAlarm = alarmTime.getTime() - now.getTime()`, adding 24h when
negative.  With `nowMs` the millisecond-of-day of `now`, the difference of
epoch timestamps equals the difference of ms-of-day values. -/

def msPerDay : Nat := 24 * 60 * 60 * 1000

/-- The delay `timeToAlarm` computed by `setAlarm` for a parsed target
time-of-day `h:m` when the current instant is `nowMs` milliseconds into
the day. -/
def setAlarmDelay (h m nowMs : Nat) : Int :=
  let alarmMs : Int := ((h * 60 + m) * 60 * 1000 : Nat)
  let timeToAlarm : Int := alarmMs - (nowMs : Int)
  if timeToAlarm < 0 then timeToAlarm + (msPerDay : Int) else timeToAlarm

/-! ## Alarm state (src/index.tsx lines 112-205) -/

/-- The alarm panel's mutable state: the pending `alarmTimeoutId`
(present/absent), the `alarmSound` element (playback position,
paused/playing, loop flag), the status paragraph, the two buttons, the
time input, and the `alarming` class on the panel. -/
structure AlarmState where
  timeoutPending : Bool
  soundPlaying : Bool
  soundTime : Nat
  soundLoop : Bool
  statusText : String
  setDisabled : Bool
  clearDisabled : Bool
  clearLabel : String
  inputDisabled : Bool
  inputValue : String
  alarming : Bool
deriving DecidableEq, Repr

/-- The alarm panel's Idle configuration: no pending one-shot, sound
stopped at position 0, empty status, set enabled / clear disabled with its
default label, input enabled, no `alarming` class. -/
def idleAlarm : AlarmState :=
  { timeoutPending := false
    soundPlaying := false
    soundTime := 0
    soundLoop := false
    statusText := ""
    setDisabled := false
    clearDisabled := true
    clearLabel := "Clear Alarm"
    inputDisabled := false
    inputValue := ""
    alarming := false }

/-- `clearAlarm`: clears the timeout when one is recorded, pauses and
rewinds the sound, drops the loop flag, writes the confirmation status,
re-enables set and the input, disables clear and restores its label,
empties the input and removes the `alarming` class. -/
def clearAlarm (st : AlarmState) : AlarmState :=
  let st := if st.timeoutPending then { st with timeoutPending := false } else st
  { st with
    soundPlaying := false
    soundTime := 0
    soundLoop := false
    statusText := "Alarm cleared."
    setDisabled := false
    clearDisabled := true
    clearLabel := "Clear Alarm"
    inputDisabled := false
    inputValue := ""
    alarming := false }

/-- The 2-second callback scheduled by `clearAlarm`: it blanks the status
only when it still reads `Alarm cleared.`. -/
def clearStatusCallback (st : AlarmState) : AlarmState :=
  if st.statusText = "Alarm cleared." then { st with statusText := "" } else st

/-- `triggerAlarm` (the one-shot callback): starts the looped sound, sets
the `Wake up!` status, adds the `alarming` class and relabels the clear
button.  `alarmTimeoutId` is not cleared here. -/
def triggerAlarm (st : AlarmState) : AlarmState :=
  { st with
    soundLoop := true
    soundPlaying := true
    statusText := "Wake up!"
    alarming := true
    clearLabel := "Stop Alarm" }

/-! ## Countdown timer (src/index.tsx lines 209-299) -/

/-- Value of a run of decimal digits, most significant first. -/
def digitsToNat (cs : List Char) : Nat :=
  cs.foldl (fun a c => a * 10 + (c.toNat - 48)) 0

/-- `parseInt` after whitespace skipping: an optional sign followed by
the maximal run of decimal digits; `none` (NaN) when no digit follows. -/
def jsParseIntCore : List Char → Option Int
  | [] => none
  | c :: rest =>
      if c = '-' then
        let ds := rest.takeWhile Char.isDigit
        if ds.isEmpty then none else some (-(digitsToNat ds : Int))
      else if c = '+' then
        let ds := rest.takeWhile Char.isDigit
        if ds.isEmpty then none else some (digitsToNat ds)
      else
        let ds := (c :: rest).takeWhile Char.isDigit
        if ds.isEmpty then none else some (digitsToNat ds)

/-- JavaScript `parseInt(s, 10)`: skip leading whitespace, read an
optional sign, then the maximal run of decimal digits; `none` (NaN) when
no digit follows. -/
def jsParseInt10 (s : String) : Option Int :=
  jsParseIntCore (s.data.dropWhile (fun c => c = ' ' ∨ c = '\t' ∨ c = '\n' ∨ c = '\r'))

/-- The `|| 0` applied to each `parseInt` result: NaN (and 0 itself)
becomes 0. -/
def orZero : Option Int → Int
  | none => 0
  | some n => n

/-- Modelled from the spec: the timer duration fields are number inputs
whose user-supplied value is a non-negative integer numeral (a digit
string), empty, or text that fails to parse — the page markup declaring
the inputs is not part of the translated source. -/
def ValidDurationInput (s : String) : Prop :=
  s.data.all Char.isDigit = true ∨ jsParseInt10 s = none

/-- The timer panel's mutable state: `secondsRemaining`, the presence of
the 1s interval, `isPaused`, the three buttons, the two duration inputs
(disabled flags and contents), the `timerSound` loop/playing flags and
the `timer-finished` class. -/
structure TimerState where
  secondsRemaining : Int
  intervalActive : Bool
  isPaused : Bool
  startDisabled : Bool
  pauseDisabled : Bool
  pauseLabel : String
  resetDisabled : Bool
  minutesDisabled : Bool
  secondsDisabled : Bool
  minutesValue : String
  secondsValue : String
  soundLooping : Bool
  soundPlaying : Bool
  finishedFlag : Bool
deriving DecidableEq, Repr

/-- The timer's Idle configuration (the state `resetTimer` establishes,
with empty inputs). -/
def idleTimer : TimerState :=
  { secondsRemaining := 0
    intervalActive := false
    isPaused := false
    startDisabled := false
    pauseDisabled := true
    pauseLabel := "Pause"
    resetDisabled := true
    minutesDisabled := false
    secondsDisabled := false
    minutesValue := ""
    secondsValue := ""
    soundLooping := false
    soundPlaying := false
    finishedFlag := false }

/-- `startTimer`: parse both fields with `parseInt(…, 10) || 0`; when the
total is ≤ 0 return before touching anything, otherwise load
`secondsRemaining`, start the 1s interval and flip the control states. -/
def startTimer (st : TimerState) : TimerState :=
  let minutes := orZero (jsParseInt10 st.minutesValue)
  let seconds := orZero (jsParseInt10 st.secondsValue)
  let totalSeconds := minutes * 60 + seconds
  if totalSeconds ≤ 0 then st
  else
    { st with
      secondsRemaining := totalSeconds
      intervalActive := true
      isPaused := false
      startDisabled := true
      pauseDisabled := false
      pauseLabel := "Pause"
      resetDisabled := false
      minutesDisabled := true
      secondsDisabled := true }

/-- `pauseTimer`: branches only on `isPaused` — resume restarts the
interval and relabels to `Pause`; pause clears the interval and relabels
to `Resume`.  There is no Idle/Finished guard in the function itself. -/
def pauseTimer (st : TimerState) : TimerState :=
  if st.isPaused then
    { st with intervalActive := true, isPaused := false, pauseLabel := "Pause" }
  else
    { st with intervalActive := false, isPaused := true, pauseLabel := "Resume" }

/-- `resetTimer`: cancel the interval, zero the remaining time, stop and
rewind the sound, drop the `timer-finished` class and restore every
control and input to its Idle default. -/
def resetTimer (st : TimerState) : TimerState :=
  { st with
    intervalActive := false
    secondsRemaining := 0
    isPaused := false
    soundPlaying := false
    soundLooping := st.soundLooping
    finishedFlag := false
    startDisabled := false
    pauseDisabled := true
    pauseLabel := "Pause"
    resetDisabled := true
    minutesDisabled := false
    secondsDisabled := false
    minutesValue := ""
    secondsValue := "" }

/-- `tick`: decrement `secondsRemaining`; at ≤ 0 clear the interval,
start the looped timer sound and add the `timer-finished` class. -/
def tick (st : TimerState) : TimerState :=
  let r := st.secondsRemaining - 1
  if r ≤ 0 then
    { st with
      secondsRemaining := r
      intervalActive := false
      soundLooping := true
      soundPlaying := true
      finishedFlag := true }
  else { st with secondsRemaining := r }

/-- The Finished state reached by starting a 1:30 countdown and letting
the interval tick 90 times: remaining is 0, the interval is cleared, the
timer sound loops and the `timer-finished` class is set, but the pause
button is still enabled (`startTimer` enabled it and `tick` never
disables it). -/
def finishedTimer : TimerState :=
  tick^[90] (startTimer { idleTimer with minutesValue := "1", secondsValue := "30" })

/-! ## Stopwatch (src/index.tsx lines 302-374) -/

/-- `formatTime`'s result record `{hours, minutes, seconds,
milliseconds}` of display strings. -/
structure FormattedTime where
  hours : String
  minutes : String
  seconds : String
  milliseconds : String
deriving DecidableEq, Repr

/-- JavaScript `padStart(2, '0')` on a digit string. -/
def padStart2 (s : String) : String :=
  String.mk (List.replicate (2 - s.length) '0') ++ s

/-- `formatTime(timeInMs)`: truncating division throughout — hours are
`floor(totalSeconds/3600)` with no 24-hour cap, centiseconds are
`floor((ms % 1000)/10)`. -/
def formatTime (timeInMs : Nat) : FormattedTime :=
  let totalSeconds := timeInMs / 1000
  let milliseconds := padStart2 (toString ((timeInMs % 1000) / 10))
  let seconds := padStart2 (toString (totalSeconds % 60))
  let minutes := padStart2 (toString ((totalSeconds / 60) % 60))
  let hours := padStart2 (toString (totalSeconds / 3600))
  ⟨hours, minutes, seconds, milliseconds⟩

/-- The stopwatch's mutable state: refresh-interval presence,
`startTime`, accumulated `elapsedTime`, `isRunning`, the lap counter, the
laps list (most recent first, each entry its 1-based number and formatted
time), and the two buttons. -/
structure StopwatchState where
  intervalActive : Bool
  startTime : Nat
  elapsedTime : Nat
  isRunning : Bool
  lapCounter : Nat
  laps : List (Nat × FormattedTime)
  primaryLabel : String
  secondaryLabel : String
  secondaryDisabled : Bool
deriving DecidableEq, Repr

/-- Initial stopwatch state as wired at load. -/
def initStopwatch : StopwatchState :=
  { intervalActive := false
    startTime := 0
    elapsedTime := 0
    isRunning := false
    lapCounter := 1
    laps := []
    primaryLabel := "Start"
    secondaryLabel := "Reset"
    secondaryDisabled := true }

/-- `handlePrimaryClick` at wall-clock instant `now`: toggles
`isRunning`; on start records `startTime` and spawns the 10ms refresh
interval, on stop folds the elapsed span into `elapsedTime`. -/
def handlePrimaryClick (now : Nat) (st : StopwatchState) : StopwatchState :=
  if !st.isRunning then
    { st with
      isRunning := true
      startTime := now
      intervalActive := true
      primaryLabel := "Stop"
      secondaryLabel := "Lap"
      secondaryDisabled := false }
  else
    { st with
      isRunning := false
      intervalActive := false
      elapsedTime := st.elapsedTime + (now - st.startTime)
      primaryLabel := "Start"
      secondaryLabel := "Reset" }

/-- `handleSecondaryClick` at wall-clock instant `now`: while running,
prepends a lap labelled with the current counter and increments the
counter; while stopped, zeroes the accumulator and start instant, resets
the counter to 1, clears the laps and disables itself. -/
def handleSecondaryClick (now : Nat) (st : StopwatchState) : StopwatchState :=
  if st.isRunning then
    let lapTime := st.elapsedTime + (now - st.startTime)
    { st with
      laps := (st.lapCounter, formatTime lapTime) :: st.laps
      lapCounter := st.lapCounter + 1 }
  else
    { st with
      elapsedTime := 0
      startTime := 0
      lapCounter := 1
      laps := []
      secondaryDisabled := true }

/-! ## Weather-fetch trigger (src/index.tsx lines 376-447)

The asynchronous sequence launched by one `getWeather` call is collapsed
into its outcome: geolocation denied/unavailable, fetch rejected or
non-2xx, or full success.  Only the success path executes
`weatherView.setAttribute('data-loaded', 'true')`. -/

inductive FetchOutcome where
  | geoDenied
  | httpError
  | ok
deriving DecidableEq, Repr

/-- Weather-panel state: the `data-loaded` attribute and a count of the
geolocation requests issued (one per `getWeather` call that passes the
`data-loaded` guard). -/
structure WeatherState where
  dataLoaded : Bool
  geoRequests : Nat
deriving DecidableEq, Repr

def weatherInit : WeatherState := { dataLoaded := false, geoRequests := 0 }

/-- One intersection-observer firing with the panel visible: `getWeather`
returns immediately when `data-loaded` is `'true'`; otherwise it issues a
geolocation request and the sequence ends in `o`, setting `data-loaded`
exactly when the fetch succeeded. -/
def getWeather (o : FetchOutcome) (st : WeatherState) : WeatherState :=
  if st.dataLoaded then st
  else
    { dataLoaded := decide (o = FetchOutcome.ok)
      geoRequests := st.geoRequests + 1 }

/-- A sequence of the panel becoming visible, each occurrence with its
fetch outcome. -/
def runVisibility (os : List FetchOutcome) (st : WeatherState) : WeatherState :=
  os.foldl (fun s o => getWeather o s) st

/-! ## Theorems -/

/-- Claim C1: for every orientation reading (the four concrete values and
any other/unknown value), routing makes exactly one panel visible and
hides the other three, following the fixed total mapping
portrait-primary→alarm, portrait-secondary→timer,
landscape-secondary→stopwatch, landscape-primary→weather, anything
else→alarm. -/
theorem C1_router_exactly_one_panel :
    ∀ o : Orientation,
      (handleOrientationChange o).visibleKeys =
        [match o with
         | Orientation.portraitPrimary => ViewKey.alarm
         | Orientation.portraitSecondary => ViewKey.timer
         | Orientation.landscapeSecondary => ViewKey.stopwatch
         | Orientation.landscapePrimary => ViewKey.weather
         | Orientation.other => ViewKey.alarm] ∧
      (allViewKeys.filter (fun k => (handleOrientationChange o).isHidden k)).length = 3 := by
  intro o
  cases o <;> exact (by decide)

/-- Claim C5: stopwatch elapsed-time formatting computes
hours = totalSeconds / 3600 with no cap at 24, minutes =
(totalSeconds / 60) mod 60, seconds = totalSeconds mod 60 and
centiseconds = (ms mod 1000) / 10, each zero-padded to two digits; in
particular 3661234 ms yields 01:01:01.23 (truncated, not rounded), and
90000000 ms (25 hours) yields hours `25`. -/
theorem C5_formatTime_fields :
    (∀ ms : Nat, formatTime ms =
      ⟨padStart2 (toString (ms / 3600000)),
       padStart2 (toString ((ms / 60000) % 60)),
       padStart2 (toString ((ms / 1000) % 60)),
       padStart2 (toString ((ms % 1000) / 10))⟩) ∧
    formatTime 3661234 = ⟨"01", "01", "01", "23"⟩ ∧
    formatTime 3661239 = ⟨"01", "01", "01", "23"⟩ ∧
    formatTime 90000000 = ⟨"25", "00", "00", "00"⟩ := by
  refine ⟨fun ms => ?_, by decide, by decide, by decide⟩
  simp only [formatTime, Nat.div_div_eq_div_mul]

/-- Claim C2 fails at the exact boundary: with the current instant
exactly 07:30:00.000 (27000000 ms into the day) and input `07:30`,
`setAlarm` computes `timeToAlarm = 0`, which is not negative, so no 24h
is added and the scheduled delay is 0 — not the +24 hours the claim
states. -/
theorem C2_boundary_counterexample :
    setAlarmDelay 7 30 27000000 = 0 ∧ (0 : Int) ≠ 24 * 60 * 60 * 1000 := by
  decide

/-- Claim C2 (amended): `setAlarm` schedules with delay
((target − now) mod 24h): current time 08:00 with input `07:30` gives
23.5 hours, current time 07:00 gives 30 minutes; at the exact boundary
where the current instant equals the target to the millisecond the delay
is 0 (not +24h), and when the current instant lies strictly inside the
target second (ms milliseconds past it) the delay is 24h − ms. -/
theorem C2_setAlarm_delay :
    setAlarmDelay 7 30 28800000 = 84600000 ∧
    setAlarmDelay 7 30 25200000 = 1800000 ∧
    setAlarmDelay 7 30 27000000 = 0 ∧
    (∀ ms : Nat, 0 < ms → ms < 1000 →
      setAlarmDelay 7 30 (27000000 + ms) = 86400000 - (ms : Int)) ∧
    (∀ h m nowMs : Nat, h < 24 → m < 60 → nowMs < msPerDay →
      setAlarmDelay h m nowMs =
        (((h * 60 + m) * 60 * 1000 : Int) - (nowMs : Int)) % ((msPerDay : Nat) : Int)) := by
  refine ⟨by decide, by decide, by decide, ?_, ?_⟩
  · intro ms h1 h2
    simp only [setAlarmDelay, msPerDay]
    split_ifs <;> push_cast <;> omega
  · intro h m nowMs hh hm hn
    simp only [setAlarmDelay, msPerDay] at *
    split_ifs <;> push_cast <;> omega

/-- Witness for C2_setAlarm_delay at ms = 500. -/
theorem C2_setAlarm_delay_witness :
    setAlarmDelay 7 30 27000500 = 86399500 := by
  have h := C2_setAlarm_delay.2.2.2.1 500 (by decide) (by decide)
  norm_num at h
  exact h

/-- Claim C8: for every parseable time-of-day input (h < 24, m < 60) and
every current ms-of-day, the delay computed by `setAlarm` is non-negative
and strictly below 24 hours, and 24h is added exactly when the raw
difference target − now is negative. -/
theorem C8_delay_in_range :
    ∀ h m nowMs : Nat, h < 24 → m < 60 → nowMs < msPerDay →
      0 ≤ setAlarmDelay h m nowMs ∧
      setAlarmDelay h m nowMs < ((msPerDay : Nat) : Int) ∧
      (setAlarmDelay h m nowMs =
          (((h * 60 + m) * 60 * 1000 : Int) - (nowMs : Int)) + ((msPerDay : Nat) : Int) ↔
        ((h * 60 + m) * 60 * 1000 : Int) - (nowMs : Int) < 0) := by
  intro h m nowMs hh hm hn
  simp only [setAlarmDelay, msPerDay] at *
  refine ⟨?_, ?_, ?_⟩ <;> split_ifs <;> push_cast <;> omega

/-- Witness for C8_delay_in_range at 07:30 with current time 07:00. -/
theorem C8_delay_in_range_witness :
    0 ≤ setAlarmDelay 7 30 25200000 ∧ setAlarmDelay 7 30 25200000 < ((msPerDay : Nat) : Int) := by
  have h := C8_delay_in_range 7 30 25200000 (by decide) (by decide) (by decide)
  exact ⟨h.1, h.2.1⟩

/-- Helper: a non-empty all-digit string parses to a non-negative value,
and any string at all parses under `|| 0` to a non-negative value unless
it begins (after whitespace) with a minus sign; stated for digit strings,
which have no sign. -/
theorem jsParseInt10_digits_nonneg (s : String) (hs : s.data.all Char.isDigit = true) :
    0 ≤ orZero (jsParseInt10 s) := by
  unfold jsParseInt10
  cases hd : s.data with
  | nil => simp [jsParseIntCore, orZero]
  | cons c cs =>
    rw [hd] at hs
    simp only [List.all_cons, Bool.and_eq_true] at hs
    obtain ⟨hc, -⟩ := hs
    have hws : ¬(c = ' ' ∨ c = '\t' ∨ c = '\n' ∨ c = '\r') := by
      rintro (h | h | h | h) <;> rw [h] at hc <;> exact absurd hc (by decide)
    have hminus : ¬c = '-' := by rintro rfl; exact absurd hc (by decide)
    have hplus : ¬c = '+' := by rintro rfl; exact absurd hc (by decide)
    rw [List.dropWhile_cons, if_neg (by simpa using hws)]
    simp only [jsParseIntCore, if_neg hminus, if_neg hplus]
    split_ifs <;> simp [orZero]

/-- Claim C3: timer start parses each duration field with
`parseInt(…,10) || 0` (empty and invalid input give 0, digit-string
fields give a non-negative value); when minutes×60+seconds ≤ 0 it
returns with no state change (the timer stays as it was), otherwise it
sets `secondsRemaining` to exactly minutes×60+seconds and starts the
tick; `start(0,0)` is a no-op, and `start(1,30)` sets remaining to 90
and reaches the Finished state (interval cleared, sound looping) after
exactly 90 one-second decrements. -/
theorem C3_startTimer_parse_total :
    orZero (jsParseInt10 "") = 0 ∧
    orZero (jsParseInt10 "abc") = 0 ∧
    (∀ s : String, ValidDurationInput s → 0 ≤ orZero (jsParseInt10 s)) ∧
    (∀ st : TimerState,
      (orZero (jsParseInt10 st.minutesValue) * 60 + orZero (jsParseInt10 st.secondsValue) ≤ 0 →
        startTimer st = st) ∧
      (0 < orZero (jsParseInt10 st.minutesValue) * 60 + orZero (jsParseInt10 st.secondsValue) →
        (startTimer st).secondsRemaining =
          orZero (jsParseInt10 st.minutesValue) * 60 + orZero (jsParseInt10 st.secondsValue) ∧
        (startTimer st).intervalActive = true ∧ (startTimer st).isPaused = false)) ∧
    (startTimer { idleTimer with minutesValue := "0", secondsValue := "0" } =
      { idleTimer with minutesValue := "0", secondsValue := "0" }) ∧
    (startTimer { idleTimer with minutesValue := "1", secondsValue := "30" }).secondsRemaining = 90 ∧
    (tick^[89] (startTimer { idleTimer with minutesValue := "1", secondsValue := "30" })).secondsRemaining = 1 ∧
    (tick^[89] (startTimer { idleTimer with minutesValue := "1", secondsValue := "30" })).finishedFlag = false ∧
    (tick^[90] (startTimer { idleTimer with minutesValue := "1", secondsValue := "30" })).secondsRemaining = 0 ∧
    (tick^[90] (startTimer { idleTimer with minutesValue := "1", secondsValue := "30" })).finishedFlag = true ∧
    (tick^[90] (startTimer { idleTimer with minutesValue := "1", secondsValue := "30" })).soundLooping = true ∧
    (tick^[90] (startTimer { idleTimer with minutesValue := "1", secondsValue := "30" })).soundPlaying = true ∧
    (tick^[90] (startTimer { idleTimer with minutesValue := "1", secondsValue := "30" })).intervalActive = false := by
  refine ⟨by decide, by decide, ?_, ?_, by decide, by decide, by decide, by decide,
    by decide, by decide, by decide, by decide, by decide⟩
  · intro s hs
    rcases hs with hdigits | hnan
    · exact jsParseInt10_digits_nonneg s hdigits
    · rw [hnan]; simp [orZero]
  · intro st
    constructor
    · intro h
      simp only [startTimer]
      rw [if_pos h]
    · intro h
      simp only [startTimer]
      rw [if_neg (by omega)]
      exact ⟨rfl, rfl, rfl⟩

/-- Witness for C3_startTimer_parse_total: starting with fields 2 and 5
sets remaining to 125. -/
theorem C3_startTimer_parse_total_witness :
    (startTimer { idleTimer with minutesValue := "2", secondsValue := "5" }).secondsRemaining = 125 := by
  have h := (C3_startTimer_parse_total.2.2.2.1
    { idleTimer with minutesValue := "2", secondsValue := "5" }).2 (by decide)
  exact h.1.trans (by decide)

/-- Claim C6 fails in the Finished state: after a 1:30 countdown runs to
completion the pause button is still enabled and `pauseTimer` is not a
no-op — it flips `isPaused` to true and relabels the button to
`Resume`. -/
theorem C6_counterexample :
    finishedTimer.secondsRemaining = 0 ∧ finishedTimer.finishedFlag = true ∧
    finishedTimer.intervalActive = false ∧ finishedTimer.pauseDisabled = false ∧
    pauseTimer finishedTimer ≠ finishedTimer := by
  decide

/-- Claim C6 (amended): `pauseTimer` never changes `secondsRemaining`;
when not paused it halts the tick (remaining frozen, label `Resume`),
when paused it restarts the tick (label `Pause`), and any pause-then-
resume cycle from the Running state restores the state exactly.  It is
not guarded against Idle or Finished: in the Finished state (where the
pause control is still enabled) it still toggles the paused flag and
label, so it is not a no-op there. -/
theorem C6_pauseResume :
    (∀ st : TimerState, (pauseTimer st).secondsRemaining = st.secondsRemaining) ∧
    (∀ st : TimerState, st.isPaused = false →
      pauseTimer st = { st with intervalActive := false, isPaused := true, pauseLabel := "Resume" }) ∧
    (∀ st : TimerState, st.isPaused = true →
      pauseTimer st = { st with intervalActive := true, isPaused := false, pauseLabel := "Pause" }) ∧
    (∀ st : TimerState, st.isPaused = false → st.intervalActive = true → st.pauseLabel = "Pause" →
      pauseTimer (pauseTimer st) = st) ∧
    pauseTimer finishedTimer ≠ finishedTimer := by
  refine ⟨?_, ?_, ?_, ?_, by decide⟩
  · intro st; simp only [pauseTimer]; split_ifs <;> rfl
  · intro st hp; simp [pauseTimer, hp]
  · intro st hp; simp [pauseTimer, hp]
  · intro st hp hi hl
    obtain ⟨s1, s2, s3, s4, s5, s6, s7, s8, s9, s10, s11, s12, s13, s14⟩ := st
    simp_all [pauseTimer]

/-- Witness for C6_pauseResume: pausing then resuming a freshly started
1:30 countdown restores the state exactly. -/
theorem C6_pauseResume_witness :
    pauseTimer (pauseTimer (startTimer { idleTimer with minutesValue := "1", secondsValue := "30" })) =
      startTimer { idleTimer with minutesValue := "1", secondsValue := "30" } :=
  C6_pauseResume.2.2.2.1 _ (by decide) (by decide) (by decide)

/-- Claim C7 fails in the Idle state: `clearAlarm` called on the Idle
configuration is observably not a no-op — it writes the `Alarm cleared.`
status message (and would clear any typed input). -/
theorem C7_counterexample :
    idleAlarm.timeoutPending = false ∧ idleAlarm.alarming = false ∧
    idleAlarm.soundPlaying = false ∧ clearAlarm idleAlarm ≠ idleAlarm := by
  decide

/-- Claim C7 (amended): from any state — Armed or Ringing included —
`clearAlarm` cancels a pending one-shot, stops and rewinds the audible
loop, and returns every control to its Idle default, leaving exactly the
Idle configuration with the transient `Alarm cleared.` status (which the
2-second callback then blanks, giving the Idle state verbatim).  Called
when the alarm is already Idle it does the same, so it is not a strict
no-op: the status message appears and any typed input is cleared. -/
theorem C7_clearAlarm_resets :
    (∀ st : AlarmState, clearAlarm st = { idleAlarm with statusText := "Alarm cleared." }) ∧
    (∀ st : AlarmState, clearStatusCallback (clearAlarm st) = idleAlarm) ∧
    (clearAlarm idleAlarm).statusText = "Alarm cleared." ∧
    (clearAlarm { idleAlarm with inputValue := "07:30" }).inputValue = "" := by
  refine ⟨?_, ?_, by decide, by decide⟩
  · intro st
    obtain ⟨tp, a2, a3, a4, a5, a6, a7, a8, a9, a10, a11⟩ := st
    cases tp <;> rfl
  · intro st
    obtain ⟨tp, a2, a3, a4, a5, a6, a7, a8, a9, a10, a11⟩ := st
    cases tp <;> rfl

/-- Claim C10: `clearAlarm` is idempotent on the whole alarm state
(pending handle, audio position and loop flag, control enablement and
labels, input value, alarming flag, status text). -/
theorem C10_clearAlarm_idempotent :
    ∀ st : AlarmState, clearAlarm (clearAlarm st) = clearAlarm st := by
  intro st
  obtain ⟨tp, a2, a3, a4, a5, a6, a7, a8, a9, a10, a11⟩ := st
  cases tp <;> rfl

/-- Helper: once `data-loaded` is `'true'`, `getWeather` returns without
issuing a request or changing anything. -/
theorem getWeather_loaded_fix (o : FetchOutcome) (st : WeatherState)
    (h : st.dataLoaded = true) : getWeather o st = st := by
  simp [getWeather, h]

/-- Claim C4 fails after a failure: the `data-loaded` attribute is set
only on the success path of `fetchWeather`, so after a completed fetch
that reported a failure the guard in `getWeather` does not hold and the
panel becoming visible again issues a second geolocation request and
fetch sequence. -/
theorem C4_counterexample :
    (getWeather FetchOutcome.httpError weatherInit).dataLoaded = false ∧
    (getWeather FetchOutcome.httpError weatherInit).geoRequests = 1 ∧
    (runVisibility [FetchOutcome.httpError, FetchOutcome.httpError] weatherInit).geoRequests = 2 ∧
    (runVisibility [FetchOutcome.geoDenied, FetchOutcome.geoDenied] weatherInit).geoRequests = 2 := by
  decide

/-- Claim C4 (amended): the weather fetch sequence runs at most once
per page lifetime after a successful completion — once `data-loaded` is
true, the panel becoming visible again never triggers another
geolocation request or fetch.  After a permission or transport failure,
however, `data-loaded` stays false and the panel becoming visible again
does trigger the sequence anew (a retry). -/
theorem C4_fetch_once_after_success :
    (∀ (o : FetchOutcome) (st : WeatherState), st.dataLoaded = true → getWeather o st = st) ∧
    (∀ (os : List FetchOutcome) (st : WeatherState), st.dataLoaded = true →
      runVisibility os st = st) ∧
    (∀ (o : FetchOutcome) (st : WeatherState),
      ((getWeather o st).dataLoaded = true ↔
        st.dataLoaded = true ∨ (st.dataLoaded = false ∧ o = FetchOutcome.ok))) ∧
    (∀ (o : FetchOutcome) (st : WeatherState), st.dataLoaded = false →
      (getWeather o st).geoRequests = st.geoRequests + 1) ∧
    (∀ os : List FetchOutcome,
      runVisibility os (getWeather FetchOutcome.ok weatherInit) =
        getWeather FetchOutcome.ok weatherInit) := by
  have hfix : ∀ (os : List FetchOutcome) (st : WeatherState), st.dataLoaded = true →
      runVisibility os st = st := by
    intro os
    induction os with
    | nil => intro st _; rfl
    | cons o os ih =>
      intro st h
      show runVisibility os (getWeather o st) = st
      rw [getWeather_loaded_fix o st h]
      exact ih st h
  refine ⟨getWeather_loaded_fix, hfix, ?_, ?_, ?_⟩
  · intro o st
    cases o <;> cases hst : st.dataLoaded <;> simp [getWeather, hst]
  · intro o st h
    simp [getWeather, h]
  · intro os
    exact hfix os _ rfl

/-- Witness for C4_fetch_once_after_success: with `data-loaded` already
true, a further visibility event changes nothing. -/
theorem C4_fetch_once_after_success_witness :
    getWeather FetchOutcome.httpError { dataLoaded := true, geoRequests := 1 } =
      { dataLoaded := true, geoRequests := 1 } :=
  C4_fetch_once_after_success.1 FetchOutcome.httpError
    { dataLoaded := true, geoRequests := 1 } rfl

/-- Claim C9: each lap taken while running prepends an entry labelled
with the current counter and increments the counter by one; the primary
(start/stop) action never touches the counter, so numbering continues
across stop/start cycles; only the secondary action while stopped
(reset) restores the counter to 1.  In the concrete trace
start, lap, lap, stop, start, lap the laps are numbered 1, 2, 3 and the
counter ends at 4, while a reset in the stopped state brings it back
to 1. -/
theorem C9_lapCounter_persistence :
    (∀ (now : Nat) (st : StopwatchState), st.isRunning = true →
      (handleSecondaryClick now st).lapCounter = st.lapCounter + 1 ∧
      (handleSecondaryClick now st).laps =
        (st.lapCounter, formatTime (st.elapsedTime + (now - st.startTime))) :: st.laps) ∧
    (∀ (now : Nat) (st : StopwatchState),
      (handlePrimaryClick now st).lapCounter = st.lapCounter) ∧
    (∀ (now : Nat) (st : StopwatchState), st.isRunning = false →
      (handleSecondaryClick now st).lapCounter = 1 ∧
      (handleSecondaryClick now st).laps = [] ∧
      (handleSecondaryClick now st).secondaryDisabled = true) ∧
    ((handleSecondaryClick 5000
        (handlePrimaryClick 4000
          (handlePrimaryClick 3000
            (handleSecondaryClick 2000
              (handleSecondaryClick 1000
                (handlePrimaryClick 0 initStopwatch)))))).lapCounter = 4 ∧
      ((handleSecondaryClick 5000
        (handlePrimaryClick 4000
          (handlePrimaryClick 3000
            (handleSecondaryClick 2000
              (handleSecondaryClick 1000
                (handlePrimaryClick 0 initStopwatch)))))).laps.map Prod.fst = [3, 2, 1])) ∧
    ((handleSecondaryClick 6000
        (handlePrimaryClick 3000
          (handleSecondaryClick 2000
            (handleSecondaryClick 1000
              (handlePrimaryClick 0 initStopwatch))))).lapCounter = 1) := by
  refine ⟨?_, ?_, ?_, by decide, by decide⟩
  · intro now st h
    simp [handleSecondaryClick, h]
  · intro now st
    simp only [handlePrimaryClick]
    split_ifs <;> rfl
  · intro now st h
    simp [handleSecondaryClick, h]

/-- Witness for C9_lapCounter_persistence: the first lap of a freshly
started stopwatch raises the counter to 2. -/
theorem C9_lapCounter_persistence_witness :
    (handleSecondaryClick 1000 (handlePrimaryClick 0 initStopwatch)).lapCounter = 2 := by
  have h := (C9_lapCounter_persistence.1 1000 (handlePrimaryClick 0 initStopwatch) (by decide)).1
  exact h.trans (by decide)

end ClockApp
